import Mathlib

/-!
Verification development for the camera management microservice
(`app/repository/memory_repo.py`, `app/service/camera_service.py`).

The Python code is shallowly embedded:
* UUIDs are modelled as `Nat`, drawn from a counter carried in the state
  (`RepoState.next`), so every `uuid4()` call yields the next counter value.
* `datetime` instants are modelled as `Int` seconds; each service operation
  receives a single `now` parameter standing for the wall-clock instant of the
  call (the source calls `datetime.now` several times inside one operation,
  microseconds apart; the claims are insensitive to that).
* Pydantic's `IPvAnyAddress` stores a parsed address object; we model a stored
  address by its numeric value (`Nat`).  The textual `ip_from`/`ip_to` query
  bounds are parsed by `ip_address`, a model of Python's
  `ipaddress.ip_address` on IPv4 dotted-quad literals.
* Python exceptions become `Except Err`; each mutating service operation
  returns `(Except Err α) × RepoState`, the second component being the store
  after the call (the source raises before mutating, which is exactly what the
  atomicity claims are about).
* Python object aliasing matters: the record returned by the repository is the
  very object stored in the dict, so field assignments made by the service
  after a repository call are visible in the store.  The embedding makes those
  writes explicit (`stampCamera`).
-/

/-- `VideoFeedSetup` from `app/models/schemas.py`: protocol, port, path. -/
structure VideoFeedSetup where
  feed_protocol : String
  feed_port : Nat
  feed_path : String
deriving Repr, DecidableEq

/-- `VideoFeedInfo` from `app/models/schemas.py`: a feed plus its `feed_id`. -/
structure VideoFeedInfo where
  feed_protocol : String
  feed_port : Nat
  feed_path : String
  feed_id : Nat
deriving Repr, DecidableEq

/-- `CameraNetworkInfo` from `app/models/schemas.py`; the stored address is the
numeric value of the parsed `IPvAnyAddress`. -/
structure CameraNetworkInfo where
  ip_address : Nat
deriving Repr, DecidableEq

/-- `ImageQuality` from `app/models/schemas.py`. -/
structure ImageQuality where
  brightness : Int
  contrast : Int
  saturation : Int
deriving Repr, DecidableEq

/-- `NewCameraData` from `app/models/schemas.py`. -/
structure NewCameraData where
  camera_name : String
  camera_model : String
  network_setup : CameraNetworkInfo
  image_settings : ImageQuality
  available_feeds : List VideoFeedSetup
deriving Repr, DecidableEq

/-- `CameraDetails` from `app/models/schemas.py`. -/
structure CameraDetails where
  camera_name : String
  camera_model : String
  network_setup : CameraNetworkInfo
  image_settings : ImageQuality
  available_feeds : List VideoFeedInfo
  camera_id : Nat
  added_on : Int
  last_updated_on : Int
  last_known_checkin : Option Int
deriving Repr, DecidableEq

/-- `CameraUpdate` from `app/models/schemas.py`: all fields optional. -/
structure CameraUpdate where
  camera_name : Option String
  camera_model : Option String
  network_setup : Option CameraNetworkInfo
  image_settings : Option ImageQuality
deriving Repr, DecidableEq

/-- `FeedUpdate` from `app/models/schemas.py`: all fields optional. -/
structure FeedUpdate where
  feed_protocol : Option String
  feed_port : Option Nat
  feed_path : Option String
deriving Repr, DecidableEq

/-- The two business error kinds raised by the service layer
(`app/core/exceptions.py`): `NotFoundError` and `ConflictError`, with their
message strings. -/
inductive Err where
  | notFound (msg : String)
  | conflict (msg : String)
deriving Repr, DecidableEq

/-- State of `SimpleCameraMemoryStorage`: the insertion-ordered dict of
cameras (`_store`) as a list, plus the fresh-UUID counter. -/
structure RepoState where
  store : List CameraDetails
  next : Nat
deriving Repr, DecidableEq

/-- `Config.HEARTBEAT_TIMEOUT` from `app/core/config.py` at its default
(`int(os.getenv("HEARTBEAT_TIMEOUT", 60))` with no environment override). -/
def HEARTBEAT_TIMEOUT : Int := 60

/-- Python dict insertion `self._store[camera_id] = cam`: overwrite in place
if the key is present, else append (dicts preserve insertion order). -/
def dictPut (store : List CameraDetails) (cam : CameraDetails) : List CameraDetails :=
  if store.any (fun c => c.camera_id == cam.camera_id) then
    store.map (fun c => if c.camera_id == cam.camera_id then cam else c)
  else
    store ++ [cam]

namespace Repo

/-- `SimpleCameraMemoryStorage.get_camera`: `self._store.get(camera_id)`. -/
def get_camera (s : RepoState) (camera_id : Nat) : Option CameraDetails :=
  s.store.find? (fun c => c.camera_id == camera_id)

/-- `SimpleCameraMemoryStorage.list_cameras`: `list(self._store.values())`. -/
def list_cameras (s : RepoState) : List CameraDetails :=
  s.store

/-- The feed-materialisation loop of `SimpleCameraMemoryStorage.add_camera`:
each supplied feed gets a fresh `feed_id` from `uuid4()` (the counter). -/
def buildFeeds : List VideoFeedSetup → Nat → List VideoFeedInfo × Nat
  | [], n => ([], n)
  | f :: fs, n =>
    let nf : VideoFeedInfo :=
      { feed_protocol := f.feed_protocol, feed_port := f.feed_port
        feed_path := f.feed_path, feed_id := n }
    let (rest, n') := buildFeeds fs (n + 1)
    (nf :: rest, n')

/-- `SimpleCameraMemoryStorage.add_camera`: generate `camera_id`, materialise
feeds with fresh ids, build the record with timestamps `now` and
`last_known_checkin = None`, store it. -/
def add_camera (s : RepoState) (now : Int) (data : NewCameraData) :
    CameraDetails × RepoState :=
  let camera_id := s.next
  let (feeds, next') := buildFeeds data.available_feeds (s.next + 1)
  let cam : CameraDetails :=
    { camera_name := data.camera_name
      camera_model := data.camera_model
      network_setup := data.network_setup
      image_settings := data.image_settings
      available_feeds := feeds
      camera_id := camera_id
      added_on := now
      last_updated_on := now
      last_known_checkin := none }
  (cam, { store := dictPut s.store cam, next := next' })

/-- `SimpleCameraMemoryStorage.remove_camera`: delete by key, report success. -/
def remove_camera (s : RepoState) (camera_id : Nat) : Bool × RepoState :=
  if s.store.any (fun c => c.camera_id == camera_id) then
    (true, { s with store := s.store.filter (fun c => !(c.camera_id == camera_id)) })
  else
    (false, s)

/-- The field-patching block of `SimpleCameraMemoryStorage.update_camera`:
every present field overwrites the stored one and flips `changed`. -/
def applyCameraUpdate (cam : CameraDetails) (u : CameraUpdate) : CameraDetails :=
  let cam := match u.camera_name with
    | some v => { cam with camera_name := v }
    | none => cam
  let cam := match u.camera_model with
    | some v => { cam with camera_model := v }
    | none => cam
  let cam := match u.network_setup with
    | some v => { cam with network_setup := v }
    | none => cam
  match u.image_settings with
    | some v => { cam with image_settings := v }
    | none => cam

/-- The `changed` flag of `SimpleCameraMemoryStorage.update_camera`: true iff
some update field is present. -/
def cameraUpdateChanged (u : CameraUpdate) : Bool :=
  u.camera_name.isSome || u.camera_model.isSome ||
    u.network_setup.isSome || u.image_settings.isSome

/-- `SimpleCameraMemoryStorage.update_camera`: patch present fields on the
stored record; bump `last_updated_on` only when some field was present.  The
Python code mutates the aliased stored object, so the store always holds the
patched record. -/
def update_camera (s : RepoState) (now : Int) (camera_id : Nat) (u : CameraUpdate) :
    Option CameraDetails × RepoState :=
  match get_camera s camera_id with
  | none => (none, s)
  | some cam =>
    let cam := applyCameraUpdate cam u
    let cam := if cameraUpdateChanged u then { cam with last_updated_on := now } else cam
    (some cam, { s with store := dictPut s.store cam })

/-- `SimpleCameraMemoryStorage.add_feed`: append a feed with a fresh id and
bump `last_updated_on`; `None` when the camera is absent. -/
def add_feed (s : RepoState) (now : Int) (camera_id : Nat) (feed : VideoFeedSetup) :
    Option VideoFeedInfo × RepoState :=
  match get_camera s camera_id with
  | none => (none, s)
  | some cam =>
    let nf : VideoFeedInfo :=
      { feed_protocol := feed.feed_protocol, feed_port := feed.feed_port
        feed_path := feed.feed_path, feed_id := s.next }
    let cam' := { cam with
      available_feeds := cam.available_feeds ++ [nf]
      last_updated_on := now }
    (some nf, { store := dictPut s.store cam', next := s.next + 1 })

/-- The field-patching block of `SimpleCameraMemoryStorage.update_feed`:
present fields overwrite; `feed_id` is never touched. -/
def applyFeedUpdate (f : VideoFeedInfo) (u : FeedUpdate) : VideoFeedInfo :=
  let f := match u.feed_protocol with
    | some v => { f with feed_protocol := v }
    | none => f
  let f := match u.feed_port with
    | some v => { f with feed_port := v }
    | none => f
  match u.feed_path with
    | some v => { f with feed_path := v }
    | none => f

/-- The `for idx, feed in enumerate(...)` loop of
`SimpleCameraMemoryStorage.update_feed`: patch the first feed whose id
matches, in place; `none` when no feed matches. -/
def updateFeedList (u : FeedUpdate) (feed_id : Nat) :
    List VideoFeedInfo → Option (VideoFeedInfo × List VideoFeedInfo)
  | [] => none
  | f :: fs =>
    if f.feed_id == feed_id then
      let nf := applyFeedUpdate f u
      some (nf, nf :: fs)
    else
      match updateFeedList u feed_id fs with
      | none => none
      | some (nf, fs') => some (nf, f :: fs')

/-- `SimpleCameraMemoryStorage.update_feed`. -/
def update_feed (s : RepoState) (now : Int) (camera_id feed_id : Nat) (u : FeedUpdate) :
    Option VideoFeedInfo × RepoState :=
  match get_camera s camera_id with
  | none => (none, s)
  | some cam =>
    match updateFeedList u feed_id cam.available_feeds with
    | none => (none, s)
    | some (nf, fs') =>
      let cam' := { cam with available_feeds := fs', last_updated_on := now }
      (some nf, { s with store := dictPut s.store cam' })

/-- The removal loop of `SimpleCameraMemoryStorage.remove_feed`: pop the first
feed whose id matches; `none` when no feed matches. -/
def removeFeedList (feed_id : Nat) : List VideoFeedInfo → Option (List VideoFeedInfo)
  | [] => none
  | f :: fs =>
    if f.feed_id == feed_id then
      some fs
    else
      match removeFeedList feed_id fs with
      | none => none
      | some fs' => some (f :: fs')

/-- `SimpleCameraMemoryStorage.remove_feed`. -/
def remove_feed (s : RepoState) (now : Int) (camera_id feed_id : Nat) :
    Bool × RepoState :=
  match get_camera s camera_id with
  | none => (false, s)
  | some cam =>
    match removeFeedList feed_id cam.available_feeds with
    | none => (false, s)
    | some fs' =>
      let cam' := { cam with available_feeds := fs', last_updated_on := now }
      (true, { s with store := dictPut s.store cam' })

end Repo

/-! ### Python-semantics helpers used by the service layer -/

/-- Python truthiness of an optional string argument (`if model:`): present
and non-empty. -/
def pyTruthy : Option String → Bool
  | none => false
  | some s => !(s == "")

/-- `str.lower()` (ASCII case folding, the range exercised by this code). -/
def toLowerStr (s : String) : String :=
  String.mk (s.data.map Char.toLower)

/-- Whether `small` begins `big` (character lists). -/
def leadsList : List Char → List Char → Bool
  | [], _ => true
  | _ :: _, [] => false
  | a :: as, b :: bs => a == b && leadsList as bs

/-- Python's `needle in hay` substring containment on strings. -/
def containsSub (hay needle : String) : Bool :=
  (List.range (hay.data.length + 1)).any (fun i => leadsList needle.data (hay.data.drop i))

/-- Split a character list on `'.'` (for dotted-quad parsing). -/
def splitOnDotAux : List Char → List Char → List (List Char)
  | [], acc => [acc.reverse]
  | c :: cs, acc =>
    if c == '.' then acc.reverse :: splitOnDotAux cs []
    else splitOnDotAux cs (c :: acc)

/-- One decimal octet of an IPv4 literal: 1–3 ASCII digits, no leading zero
on multi-digit parts, value ≤ 255 (the grammar `ipaddress` accepts). -/
def parseOctet (cs : List Char) : Option Nat :=
  if cs.length = 0 || decide (3 < cs.length) then none
  else if !(cs.all Char.isDigit) then none
  else if decide (1 < cs.length) && (cs.headD 'x' == '0') then none
  else
    let v := cs.foldl (fun a c => a * 10 + (c.toNat - 48)) 0
    if v ≤ 255 then some v else none

/-- Models Python's `ipaddress.ip_address` on the IPv4 dotted-quad literals
this repository's data and tests exercise: returns the numeric address value,
`none` when the literal is malformed. -/
def ip_address (s : String) : Option Nat :=
  match splitOnDotAux s.data [] with
  | [a, b, c, d] =>
    match parseOctet a, parseOctet b, parseOctet c, parseOctet d with
    | some va, some vb, some vc, some vd =>
      some (((va * 256 + vb) * 256 + vc) * 256 + vd)
    | _, _, _, _ => none
  | _ => none

/-- Python slice-index normalisation for a sequence of length `n`: a negative
index counts from the end; the result is clipped to `[0, n]`. -/
def pyIndex (n : Nat) (i : Int) : Int :=
  if i < 0 then max ((n : Int) + i) 0 else min i (n : Int)

/-- Python list slicing `l[start:stop]` (step 1, possibly negative bounds). -/
def pySlice {α : Type} (l : List α) (start stop : Int) : List α :=
  (l.drop (pyIndex l.length start).toNat).take
    (pyIndex l.length stop - pyIndex l.length start).toNat

/-- The service's post-call object mutation
`cam.last_known_checkin = now; cam.last_updated_on = now`: the repository
returned the aliased stored object, so the store is updated in place. -/
def stampCamera (s : RepoState) (camera_id : Nat) (now : Int) : RepoState :=
  { s with store := s.store.map (fun c =>
      if c.camera_id == camera_id then
        { c with last_known_checkin := some now, last_updated_on := now }
      else c) }

/-! ### Service layer (`CameraService`) -/

namespace Service

/-- `CameraService.add_camera`: reject a duplicate IP, then a duplicate
(name, model) pair, then delegate to the repository and stamp
`last_known_checkin`/`last_updated_on` on the created (aliased) record. -/
def add_camera (s : RepoState) (now : Int) (data : NewCameraData) :
    Except Err CameraDetails × RepoState :=
  if s.store.any (fun c => c.network_setup.ip_address == data.network_setup.ip_address) then
    (.error (.conflict "A camera with this IP address already exists."), s)
  else if s.store.any (fun c =>
      c.camera_name == data.camera_name && c.camera_model == data.camera_model) then
    (.error (.conflict "A camera with same name and model already exists."), s)
  else
    let (cam, s₁) := Repo.add_camera s now data
    let cam' := { cam with last_known_checkin := some now, last_updated_on := now }
    (.ok cam', stampCamera s₁ cam.camera_id now)

/-- `CameraService.get_camera`. -/
def get_camera (s : RepoState) (camera_id : Nat) : Except Err CameraDetails :=
  match Repo.get_camera s camera_id with
  | none => .error (.notFound "Camera not found.")
  | some cam => .ok cam

/-- `CameraService.remove_camera`. -/
def remove_camera (s : RepoState) (camera_id : Nat) : Except Err Bool × RepoState :=
  match Repo.remove_camera s camera_id with
  | (false, s₁) => (.error (.notFound "Camera not found."), s₁)
  | (true, s₁) => (.ok true, s₁)

/-- `CameraService.update_camera`: repository patch, then stamp
`last_known_checkin`/`last_updated_on` on the returned (aliased) record. -/
def update_camera (s : RepoState) (now : Int) (camera_id : Nat) (u : CameraUpdate) :
    Except Err CameraDetails × RepoState :=
  match Repo.update_camera s now camera_id u with
  | (none, s₁) => (.error (.notFound "Camera not found."), s₁)
  | (some cam, s₁) =>
    let cam' := { cam with last_known_checkin := some now, last_updated_on := now }
    (.ok cam', stampCamera s₁ camera_id now)

/-- `CameraService.add_feed`: `NotFound` when the camera is absent; `Conflict`
when that same camera already has a feed with the same (protocol, port); else
append via the repository and stamp the camera. -/
def add_feed (s : RepoState) (now : Int) (camera_id : Nat) (feed_data : VideoFeedSetup) :
    Except Err VideoFeedInfo × RepoState :=
  match Repo.get_camera s camera_id with
  | none => (.error (.notFound "Camera not found."), s)
  | some cam =>
    if cam.available_feeds.any (fun f =>
        f.feed_protocol == feed_data.feed_protocol && f.feed_port == feed_data.feed_port) then
      (.error (.conflict "A feed with same protocol and port already exists for this camera."), s)
    else
      match Repo.add_feed s now camera_id feed_data with
      | (none, s₁) => (.error (.notFound "Camera not found while adding feed."), s₁)
      | (some nf, s₁) => (.ok nf, stampCamera s₁ camera_id now)

/-- `CameraService.update_feed`: repository patch, then stamp the camera. -/
def update_feed (s : RepoState) (now : Int) (camera_id feed_id : Nat) (u : FeedUpdate) :
    Except Err VideoFeedInfo × RepoState :=
  match Repo.update_feed s now camera_id feed_id u with
  | (none, s₁) => (.error (.notFound "Camera or Feed not found."), s₁)
  | (some nf, s₁) =>
    match Repo.get_camera s₁ camera_id with
    | none => (.error (.notFound "Camera not found."), s₁)
    | some _ => (.ok nf, stampCamera s₁ camera_id now)

/-- `CameraService.remove_feed`: repository removal, then stamp the camera. -/
def remove_feed (s : RepoState) (now : Int) (camera_id feed_id : Nat) :
    Except Err Bool × RepoState :=
  match Repo.remove_feed s now camera_id feed_id with
  | (false, s₁) => (.error (.notFound "Camera or Feed not found."), s₁)
  | (true, s₁) =>
    match Repo.get_camera s₁ camera_id with
    | none => (.error (.notFound "Camera not found."), s₁)
    | some _ => (.ok true, stampCamera s₁ camera_id now)

/-- `CameraService.heartbeat`: stamp `last_known_checkin`/`last_updated_on`. -/
def heartbeat (s : RepoState) (now : Int) (camera_id : Nat) :
    Except Err Unit × RepoState :=
  match Repo.get_camera s camera_id with
  | none => (.error (.notFound "Camera not found."), s)
  | some _ => (.ok (), stampCamera s camera_id now)

/-- `CameraService.is_online`: `NotFound` when absent; `false` without a
heartbeat; else offline exactly when `now - last_checkin` exceeds
`HEARTBEAT_TIMEOUT`. -/
def is_online (s : RepoState) (now : Int) (camera_id : Nat) : Except Err Bool :=
  match Repo.get_camera s camera_id with
  | none => .error (.notFound "Camera not found.")
  | some cam =>
    match cam.last_known_checkin with
    | none => .ok false
    | some t => if HEARTBEAT_TIMEOUT < now - t then .ok false else .ok true

/-- FILTER 1 of `CameraService.list_cameras`: case-insensitive substring
match of `model` against `camera_model`, applied only when `model` is truthy. -/
def modelStage (model : Option String) (cameras : List CameraDetails) :
    List CameraDetails :=
  if pyTruthy model then
    cameras.filter (fun c => containsSub (toLowerStr c.camera_model) (toLowerStr (model.getD "")))
  else cameras

/-- `ipaddress.ip_address(bound) if bound else None` inside FILTER 2: a truthy
bound must parse (else `ConflictError("Invalid IP format.")`), a falsy one is
absent. -/
def parseBound (bound : Option String) : Except Err (Option Nat) :=
  if pyTruthy bound then
    match ip_address (bound.getD "") with
    | some v => .ok (some v)
    | none => .error (.conflict "Invalid IP format.")
  else .ok none

/-- The `in_range` predicate of FILTER 2: not below a present lower bound and
not above a present upper bound. -/
def in_range (lo hi : Option Nat) (ip : Nat) : Bool :=
  (match lo with | some l => !(ip < l) | none => true) &&
  (match hi with | some h => !(h < ip) | none => true)

/-- FILTER 2 of `CameraService.list_cameras`: when either bound is truthy,
parse both (failure aborts the call) and keep the cameras in range. -/
def ipRangeStage (ip_from ip_to : Option String) (cameras : List CameraDetails) :
    Except Err (List CameraDetails) :=
  if pyTruthy ip_from || pyTruthy ip_to then
    match parseBound ip_from with
    | .error e => .error e
    | .ok lo =>
      match parseBound ip_to with
      | .error e => .error e
      | .ok hi => .ok (cameras.filter (fun c => in_range lo hi c.network_setup.ip_address))
  else .ok cameras

/-- FILTER 3 of `CameraService.list_cameras`: keep the cameras whose
`is_online` (re-derived through the store by id) equals the requested flag.
The error branch is unreachable for cameras drawn from the store —
`get_camera` by their own id always succeeds. -/
def onlineStage (s : RepoState) (now : Int) (online : Option Bool)
    (cameras : List CameraDetails) : List CameraDetails :=
  match online with
  | none => cameras
  | some b => cameras.filter (fun c =>
      match is_online s now c.camera_id with
      | .ok v => v == b
      | .error _ => false)

/-- The three filters of `CameraService.list_cameras` in their fixed source
order: model substring, then IP range, then online status. -/
def filteredCameras (s : RepoState) (now : Int) (model ip_from ip_to : Option String)
    (online : Option Bool) : Except Err (List CameraDetails) :=
  match ipRangeStage ip_from ip_to (modelStage model s.store) with
  | .error e => .error e
  | .ok cameras => .ok (onlineStage s now online cameras)

/-- `CameraService.list_cameras`: filters in fixed order, then the slice
`cameras[(page-1)*page_size : (page-1)*page_size + page_size]`. -/
def list_cameras (s : RepoState) (now : Int) (model ip_from ip_to : Option String)
    (online : Option Bool) (page page_size : Int) :
    Except Err (List CameraDetails) :=
  match filteredCameras s now model ip_from ip_to online with
  | .error e => .error e
  | .ok cameras =>
    .ok (pySlice cameras ((page - 1) * page_size) ((page - 1) * page_size + page_size))

/-- `CameraService.list_feeds`: `NotFound` when the camera is absent; filter
by truthy protocol (case-insensitive equality), present port (exact), truthy
`q` (substring of path); then the same slice as `list_cameras`. -/
def list_feeds (s : RepoState) (camera_id : Nat) (protocol : Option String)
    (port : Option Nat) (q : Option String) (page page_size : Int) :
    Except Err (List VideoFeedInfo) :=
  match Repo.get_camera s camera_id with
  | none => .error (.notFound "Camera not found.")
  | some cam =>
    let feeds := cam.available_feeds
    let feeds := if pyTruthy protocol then
        feeds.filter (fun f => toLowerStr f.feed_protocol == toLowerStr (protocol.getD ""))
      else feeds
    let feeds := match port with
      | some p => feeds.filter (fun f => f.feed_port == p)
      | none => feeds
    let feeds := if pyTruthy q then
        feeds.filter (fun f => containsSub (toLowerStr f.feed_path) (toLowerStr (q.getD "")))
      else feeds
    .ok (pySlice feeds ((page - 1) * page_size) ((page - 1) * page_size + page_size))

end Service

/-! ### Concrete fixtures used by counterexamples and witnesses -/

/-- Camera "X": id 0, address 1, one rtsp feed on port 554 (feed id 10). -/
def camA : CameraDetails :=
  { camera_name := "X", camera_model := "M", network_setup := ⟨1⟩,
    image_settings := ⟨50, 50, 50⟩,
    available_feeds := [⟨"rtsp", 554, "/", 10⟩],
    camera_id := 0, added_on := 0, last_updated_on := 0, last_known_checkin := none }

/-- Camera "Y": id 1, address 2, no feeds. -/
def camB : CameraDetails :=
  { camera_name := "Y", camera_model := "M", network_setup := ⟨2⟩,
    image_settings := ⟨50, 50, 50⟩, available_feeds := [],
    camera_id := 1, added_on := 0, last_updated_on := 0, last_known_checkin := none }

/-- A two-camera store (ids 0 and 1), counter at 20. -/
def stC : RepoState := ⟨[camA, camB], 20⟩

/-- Creation payload matching camera "X" with no initial feeds. -/
def dataX : NewCameraData := ⟨"X", "M", ⟨1⟩, ⟨50, 50, 50⟩, []⟩

/-! ### Store helper lemmas (find? through map-by-id and dictPut) -/

theorem find?_map_id_preserve (g : CameraDetails → CameraDetails)
    (p : CameraDetails → Bool) (hp : ∀ c, p (g c) = p c) :
    ∀ store : List CameraDetails, (store.map g).find? p = (store.find? p).map g := by
  intro store
  induction store with
  | nil => rfl
  | cons c rest ih =>
    rw [List.map_cons]
    cases h : p c with
    | true =>
      rw [List.find?_cons_of_pos _ (show p (g c) = true by rw [hp]; exact h),
        List.find?_cons_of_pos _ h]
      rfl
    | false =>
      rw [List.find?_cons_of_neg _
          (show ¬p (g c) = true by rw [hp, h]; exact Bool.false_ne_true),
        List.find?_cons_of_neg _ (show ¬p c = true by rw [h]; exact Bool.false_ne_true), ih]

theorem find?_replaceById (store : List CameraDetails) (cid : Nat)
    (cam cam' : CameraDetails)
    (h : store.find? (fun c => c.camera_id == cid) = some cam)
    (hid : cam'.camera_id = cid) :
    (store.map (fun c => if c.camera_id == cam'.camera_id then cam' else c)).find?
        (fun c => c.camera_id == cid) = some cam' := by
  have hp : ∀ c : CameraDetails,
      ((if c.camera_id == cam'.camera_id then cam' else c).camera_id == cid)
        = (c.camera_id == cid) := by
    intro c
    by_cases hc : (c.camera_id == cam'.camera_id) = true
    · have hcid : c.camera_id = cid := by
        rw [hid] at hc
        exact eq_of_beq hc
      simp [hc, hcid, hid]
    · simp [hc]
  have hbc : (cam.camera_id == cam'.camera_id) = true := by
    rw [hid]
    have hpc := List.find?_some h
    exact hpc
  rw [find?_map_id_preserve _ _ hp store, h]
  show some (if cam.camera_id == cam'.camera_id then cam' else cam) = some cam'
  rw [if_pos hbc]

theorem dictPut_of_found (store : List CameraDetails) (cid : Nat)
    (cam cam' : CameraDetails)
    (h : store.find? (fun c => c.camera_id == cid) = some cam)
    (hid : cam'.camera_id = cid) :
    dictPut store cam'
      = store.map (fun c => if c.camera_id == cam'.camera_id then cam' else c) := by
  unfold dictPut
  rw [if_pos]
  rw [List.any_eq_true]
  refine ⟨cam, List.mem_of_find?_eq_some h, ?_⟩
  show (cam.camera_id == cam'.camera_id) = true
  rw [hid]
  have hpc := List.find?_some h
  exact hpc

theorem find?_dictPut (store : List CameraDetails) (cid : Nat)
    (cam cam' : CameraDetails)
    (h : store.find? (fun c => c.camera_id == cid) = some cam)
    (hid : cam'.camera_id = cid) :
    (dictPut store cam').find? (fun c => c.camera_id == cid) = some cam' := by
  rw [dictPut_of_found store cid cam cam' h hid]
  exact find?_replaceById store cid cam cam' h hid

theorem get_camera_stampCamera (s : RepoState) (cid : Nat) (now : Int) :
    Repo.get_camera (stampCamera s cid now) cid
      = (Repo.get_camera s cid).map
          (fun c => { c with last_known_checkin := some now, last_updated_on := now }) := by
  have hp : ∀ c : CameraDetails,
      ((if c.camera_id == cid then
          { c with last_known_checkin := some now, last_updated_on := now }
        else c).camera_id == cid) = (c.camera_id == cid) := by
    intro c
    by_cases hc : (c.camera_id == cid) = true
    · simp [hc]
    · simp [hc]
  show ((s.store.map (fun c => if c.camera_id == cid then
      { c with last_known_checkin := some now, last_updated_on := now } else c)).find?
        (fun c => c.camera_id == cid))
    = (s.store.find? (fun c => c.camera_id == cid)).map
        (fun c => { c with last_known_checkin := some now, last_updated_on := now })
  rw [find?_map_id_preserve _ _ hp s.store]
  cases hf : s.store.find? (fun c => c.camera_id == cid) with
  | none => rfl
  | some c =>
    have hpc := List.find?_some hf
    show some (if c.camera_id == cid then
        { c with last_known_checkin := some now, last_updated_on := now } else c)
      = some { c with last_known_checkin := some now, last_updated_on := now }
    rw [if_pos hpc]

/-! ### Claim C1: add_feed conflicts -/

/-- C1 counterexample: camera 0 holds an rtsp feed on port 554; camera 1 holds
no feeds.  `add_feed(1, (http, 554, "/alt"))` succeeds and appends the feed,
although port 554 is already in use on camera 0 — refuting the claimed
registry-wide port-uniqueness Conflict. -/
theorem C1_counterexample :
    (Service.add_feed stC 100 1 ⟨"http", 554, "/alt"⟩).1
        = Except.ok ⟨"http", 554, "/alt", 20⟩
    ∧ (Repo.get_camera (Service.add_feed stC 100 1 ⟨"http", 554, "/alt"⟩).2 1).map
          (fun c => c.available_feeds)
        = some [⟨"http", 554, "/alt", 20⟩] :=
  ⟨rfl, rfl⟩

/-- C1 (amended): for an existing camera, `add_feed` fails with Conflict
exactly when that same camera already has a feed with the same
(protocol, port) pair; otherwise it succeeds — ports held by other cameras,
or the same port under a different protocol, are not checked. -/
theorem C1_add_feed_conflict_is_per_camera (s : RepoState) (now : Int) (cid : Nat)
    (fd : VideoFeedSetup) (cam : CameraDetails)
    (hget : Repo.get_camera s cid = some cam) :
    (cam.available_feeds.any (fun f =>
        f.feed_protocol == fd.feed_protocol && f.feed_port == fd.feed_port) = true →
      Service.add_feed s now cid fd
        = (Except.error (Err.conflict
            "A feed with same protocol and port already exists for this camera."), s))
    ∧ (cam.available_feeds.any (fun f =>
        f.feed_protocol == fd.feed_protocol && f.feed_port == fd.feed_port) = false →
      (Service.add_feed s now cid fd).1
        = Except.ok ⟨fd.feed_protocol, fd.feed_port, fd.feed_path, s.next⟩) := by
  constructor
  · intro hdup
    simp [Service.add_feed, hget, hdup]
  · intro hnd
    simp [Service.add_feed, Repo.add_feed, hget, hnd]

/-- C1 witness: the amended theorem applied to the fixture store — camera 0
already has an rtsp feed on port 554, so adding (rtsp, 554, "/x") to camera 0
fails Conflict, while the cross-camera add of C1_counterexample succeeds. -/
theorem C1_witness :
    Service.add_feed stC 100 0 ⟨"rtsp", 554, "/x"⟩
      = (Except.error (Err.conflict
          "A feed with same protocol and port already exists for this camera."), stC) :=
  (C1_add_feed_conflict_is_per_camera stC 100 0 ⟨"rtsp", 554, "/x"⟩ camA rfl).1 rfl

/-! ### Claim C2: last_checkin after each operation -/

/-- C2 counterexample: a successful `add_camera` at instant 5 returns a camera
whose `last_checkin` is already `some 5` — not absent as claimed (the service
stamps an initial heartbeat on creation). -/
theorem C2_counterexample :
    (match (Service.add_camera ⟨[], 0⟩ 5 dataX).1 with
      | Except.ok c => c.last_known_checkin
      | Except.error _ => none) = some 5 :=
  rfl

/-- `last_checkin` of the camera found in a stamped store is the stamp
instant. -/
theorem stampCamera_checkin (s : RepoState) (cid : Nat) (now : Int)
    (c : CameraDetails)
    (h : Repo.get_camera (stampCamera s cid now) cid = some c) :
    c.last_known_checkin = some now := by
  rw [get_camera_stampCamera] at h
  cases hf : Repo.get_camera s cid with
  | none => rw [hf] at h; exact absurd h (by simp)
  | some c0 =>
    rw [hf] at h
    simp at h
    rw [← h]

/-- C2 (amended): far from leaving `last_checkin` absent, every successful
`add_camera`, `update_camera`, `add_feed`, `update_feed` and `remove_feed`
stamps the affected camera's `last_checkin` to the instant of the call. -/
theorem C2_operations_stamp_checkin (s : RepoState) (now : Int) (d : NewCameraData)
    (cid fid : Nat) (u : CameraUpdate) (fu : FeedUpdate) (fd : VideoFeedSetup) :
    (∀ c, (Service.add_camera s now d).1 = Except.ok c →
      c.last_known_checkin = some now)
    ∧ (∀ c, (Service.update_camera s now cid u).1 = Except.ok c →
      c.last_known_checkin = some now)
    ∧ ((Service.add_feed s now cid fd).1.isOk = true →
      ∀ c, Repo.get_camera (Service.add_feed s now cid fd).2 cid = some c →
        c.last_known_checkin = some now)
    ∧ ((Service.update_feed s now cid fid fu).1.isOk = true →
      ∀ c, Repo.get_camera (Service.update_feed s now cid fid fu).2 cid = some c →
        c.last_known_checkin = some now)
    ∧ ((Service.remove_feed s now cid fid).1.isOk = true →
      ∀ c, Repo.get_camera (Service.remove_feed s now cid fid).2 cid = some c →
        c.last_known_checkin = some now) := by
  refine ⟨?_, ?_, ?_, ?_, ?_⟩
  · intro c hc
    by_cases h1 : (s.store.any (fun x =>
        x.network_setup.ip_address == d.network_setup.ip_address)) = true
    · simp [Service.add_camera, h1] at hc
    · by_cases h2 : (s.store.any (fun x =>
          x.camera_name == d.camera_name && x.camera_model == d.camera_model)) = true
      · simp [Service.add_camera, h1, h2] at hc
      · rcases hrepo : Repo.add_camera s now d with ⟨cam, s₁⟩
        simp [Service.add_camera, h1, h2, hrepo] at hc
        rw [← hc]
  · intro c hc
    rcases hrepo : Repo.update_camera s now cid u with ⟨r, s₁⟩
    cases r with
    | none => simp [Service.update_camera, hrepo] at hc
    | some cam =>
      simp [Service.update_camera, hrepo] at hc
      rw [← hc]
  · intro hok c hc
    cases hg : Repo.get_camera s cid with
    | none => simp [Service.add_feed, hg, Except.isOk, Except.toBool] at hok
    | some cam =>
      by_cases hdup : (cam.available_feeds.any (fun f =>
          f.feed_protocol == fd.feed_protocol && f.feed_port == fd.feed_port)) = true
      · simp [Service.add_feed, hg, hdup, Except.isOk, Except.toBool] at hok
      · rcases haf : Repo.add_feed s now cid fd with ⟨r, s₁⟩
        cases r with
        | none => simp [Service.add_feed, hg, hdup, haf, Except.isOk, Except.toBool] at hok
        | some nf =>
          simp [Service.add_feed, hg, hdup, haf] at hc
          exact stampCamera_checkin s₁ cid now c hc
  · intro hok c hc
    rcases huf : Repo.update_feed s now cid fid fu with ⟨r, s₁⟩
    cases r with
    | none => simp [Service.update_feed, huf, Except.isOk, Except.toBool] at hok
    | some nf =>
      cases hg : Repo.get_camera s₁ cid with
      | none => simp [Service.update_feed, huf, hg, Except.isOk, Except.toBool] at hok
      | some cam =>
        simp [Service.update_feed, huf, hg] at hc
        exact stampCamera_checkin s₁ cid now c hc
  · intro hok c hc
    rcases hrf : Repo.remove_feed s now cid fid with ⟨r, s₁⟩
    cases r with
    | false => simp [Service.remove_feed, hrf, Except.isOk, Except.toBool] at hok
    | true =>
      cases hg : Repo.get_camera s₁ cid with
      | none => simp [Service.remove_feed, hrf, hg, Except.isOk, Except.toBool] at hok
      | some cam =>
        simp [Service.remove_feed, hrf, hg] at hc
        exact stampCamera_checkin s₁ cid now c hc

/-- C2 witness: the amended theorem applied to the empty store at instant 5 —
the camera returned by `add_camera` carries `last_checkin = some 5`. -/
theorem C2_witness :
    ({ camera_name := "X", camera_model := "M", network_setup := ⟨1⟩,
       image_settings := ⟨50, 50, 50⟩, available_feeds := [], camera_id := 0,
       added_on := 5, last_updated_on := 5,
       last_known_checkin := some 5 } : CameraDetails).last_known_checkin
      = some 5 :=
  (C2_operations_stamp_checkin ⟨[], 0⟩ 5 dataX 0 0 ⟨none, none, none, none⟩
      ⟨none, none, none⟩ ⟨"rtsp", 554, "/"⟩).1 _ rfl

/-! ### Slice-normalisation lemmas -/

theorem pyIndex_nonneg (n : Nat) (i : Int) : 0 ≤ pyIndex n i := by
  unfold pyIndex
  by_cases h : i < 0
  · rw [if_pos h]; exact le_max_right _ _
  · rw [if_neg h]
    exact le_min (by omega) (Int.ofNat_nonneg n)

theorem pyIndex_zero (n : Nat) : pyIndex n 0 = 0 := by
  unfold pyIndex
  rw [if_neg (lt_irrefl 0)]
  exact min_eq_left (Int.ofNat_nonneg n)

/-- Any slice whose stop bound is 0 is empty. -/
theorem pySlice_stop_zero {α : Type} (l : List α) (a : Int) :
    pySlice l a 0 = [] := by
  unfold pySlice
  rw [pyIndex_zero]
  have hb : 0 ≤ pyIndex l.length a := pyIndex_nonneg l.length a
  have ht : (0 - pyIndex l.length a).toNat = 0 := by omega
  rw [ht]
  exact List.take_zero _

/-- A slice with non-negative start `a` and stop `a + k` (`k ≥ 0`) is
`drop a` then `take k`. -/
theorem pySlice_nonneg {α : Type} (l : List α) (a k : Int)
    (ha : 0 ≤ a) (hk : 0 ≤ k) :
    pySlice l a (a + k) = (l.drop a.toNat).take k.toNat := by
  unfold pySlice pyIndex
  rw [if_neg (by omega : ¬a < 0), if_neg (by omega : ¬a + k < 0)]
  by_cases hle : a ≤ (l.length : Int)
  · have hb : min a (l.length : Int) = a := min_eq_left hle
    rw [hb]
    apply List.take_eq_take.mpr
    rw [List.length_drop]
    have h1 : (min (a + k) (l.length : Int) - a).toNat
        = min k.toNat (l.length - a.toNat) := by omega
    omega
  · have hb : min a (l.length : Int) = (l.length : Int) := min_eq_right (by omega)
    have he : min (a + k) (l.length : Int) = (l.length : Int) := min_eq_right (by omega)
    rw [hb, he]
    have hz : ((l.length : Int) - (l.length : Int)).toNat = 0 := by omega
    rw [hz]
    have hd : l.drop ((l.length : Int)).toNat = [] := by
      apply List.drop_eq_nil_of_le
      omega
    have hd2 : l.drop a.toNat = [] := by
      apply List.drop_eq_nil_of_le
      omega
    rw [hd, hd2]
    simp

/-! ### Claim C3: update_camera semantics -/

/-- C3 counterexample: camera 0 has `updated_at = 0`; a fully-absent (no-op)
update at instant 7 returns the camera with `updated_at = 7` — the service
stamps `last_updated_on` unconditionally, so a no-op update does not leave it
unchanged. -/
theorem C3_counterexample :
    camA.last_updated_on = 0
    ∧ (match (Service.update_camera stC 7 0 ⟨none, none, none, none⟩).1 with
        | Except.ok c => some c.last_updated_on
        | Except.error _ => none) = some 7 :=
  ⟨rfl, rfl⟩

/-- C3 (amended): for an existing camera, `update_camera` overwrites exactly
the present fields and leaves absent ones untouched, but `updated_at` (and
`last_checkin`) advance to "now" on every successful call — no-op or not. -/
theorem C3_update_camera_semantics (s : RepoState) (now : Int) (cid : Nat)
    (u : CameraUpdate) (cam : CameraDetails)
    (hget : Repo.get_camera s cid = some cam) :
    (Service.update_camera s now cid u).1 = Except.ok
      { camera_name := u.camera_name.getD cam.camera_name
        camera_model := u.camera_model.getD cam.camera_model
        network_setup := u.network_setup.getD cam.network_setup
        image_settings := u.image_settings.getD cam.image_settings
        available_feeds := cam.available_feeds
        camera_id := cam.camera_id
        added_on := cam.added_on
        last_updated_on := now
        last_known_checkin := some now } := by
  cases hn : u.camera_name <;> cases hm : u.camera_model <;>
    cases hs : u.network_setup <;> cases hi : u.image_settings <;>
      simp [Service.update_camera, Repo.update_camera, Repo.applyCameraUpdate,
        Repo.cameraUpdateChanged, hget, hn, hm, hs, hi]

/-- C3 witness: updating only the name of camera 0 at instant 7 overwrites the
name, keeps the other fields, and stamps both timestamps to 7. -/
theorem C3_witness :
    (Service.update_camera stC 7 0 ⟨some "Z", none, none, none⟩).1 = Except.ok
      { camera_name := "Z", camera_model := "M", network_setup := ⟨1⟩,
        image_settings := ⟨50, 50, 50⟩,
        available_feeds := [⟨"rtsp", 554, "/", 10⟩],
        camera_id := 0, added_on := 0, last_updated_on := 7,
        last_known_checkin := some 7 } :=
  C3_update_camera_semantics stC 7 0 ⟨some "Z", none, none, none⟩ camA rfl

/-! ### Claim C4: is_online semantics -/

/-- C4: `is_online` fails NotFound when the camera is absent; returns false
when `last_checkin` is absent; and with a checkin at `t` returns true iff
`now - t ≤ HEARTBEAT_TIMEOUT` (strictly greater means offline), with the
timeout defaulting to 60 seconds.  `now` is the single wall-clock parameter
of the call. -/
theorem C4_is_online_semantics (s : RepoState) (now : Int) (cid : Nat) :
    HEARTBEAT_TIMEOUT = 60
    ∧ (Repo.get_camera s cid = none →
        Service.is_online s now cid = Except.error (Err.notFound "Camera not found."))
    ∧ (∀ cam, Repo.get_camera s cid = some cam →
        (cam.last_known_checkin = none → Service.is_online s now cid = Except.ok false)
        ∧ (∀ t, cam.last_known_checkin = some t →
            ((Service.is_online s now cid = Except.ok true) ↔ now - t ≤ HEARTBEAT_TIMEOUT)
            ∧ (HEARTBEAT_TIMEOUT < now - t →
                Service.is_online s now cid = Except.ok false))) := by
  refine ⟨rfl, ?_, ?_⟩
  · intro h
    simp [Service.is_online, h]
  · intro cam hg
    constructor
    · intro hn
      simp [Service.is_online, hg, hn]
    · intro t ht
      constructor
      · constructor
        · intro hk
          by_cases hlt : HEARTBEAT_TIMEOUT < now - t
          · simp [Service.is_online, hg, ht, hlt] at hk
          · omega
        · intro hle
          have hlt : ¬HEARTBEAT_TIMEOUT < now - t := by omega
          simp [Service.is_online, hg, ht, hlt]
      · intro hlt
        simp [Service.is_online, hg, ht, hlt]

/-- Camera 0 with a heartbeat recorded at instant 0. -/
def camOn : CameraDetails := { camA with last_known_checkin := some 0 }

/-- Store holding only `camOn`. -/
def stOn : RepoState := ⟨[camOn], 20⟩

/-- C4 witness: 61 seconds after its only heartbeat (one past the 60-second
default timeout), camera 0 reports offline. -/
theorem C4_witness :
    Service.is_online stOn 61 0 = Except.ok false :=
  (((C4_is_online_semantics stOn 61 0).2.2 camOn rfl).2 0 rfl).2 (by decide)

/-! ### Claim C5: add_camera uniqueness conflicts -/

/-- Number of stored cameras carrying network address `a`. -/
def countAddr (store : List CameraDetails) (a : Nat) : Nat :=
  (store.filter (fun c => c.network_setup.ip_address == a)).length

/-- C5: when exactly one stored camera already has the submitted address, a
second `add_camera` with that address fails Conflict leaving the store
untouched, so exactly one camera still has the address; and with a fresh
address but a stored (name, model) match, `add_camera` fails Conflict with
the name/model message, also leaving the store untouched. -/
theorem C5_add_camera_uniqueness (s : RepoState) (now : Int) (d : NewCameraData) :
    (countAddr s.store d.network_setup.ip_address = 1 →
      Service.add_camera s now d
        = (Except.error (Err.conflict "A camera with this IP address already exists."), s)
      ∧ countAddr (Service.add_camera s now d).2.store d.network_setup.ip_address = 1)
    ∧ ((s.store.any (fun c =>
          c.network_setup.ip_address == d.network_setup.ip_address)) = false →
       (s.store.any (fun c =>
          c.camera_name == d.camera_name && c.camera_model == d.camera_model)) = true →
      Service.add_camera s now d
        = (Except.error (Err.conflict "A camera with same name and model already exists."), s)) := by
  constructor
  · intro hcount
    have hne : s.store.filter
        (fun c => c.network_setup.ip_address == d.network_setup.ip_address) ≠ [] := by
      intro hnil
      unfold countAddr at hcount
      rw [hnil] at hcount
      simp at hcount
    obtain ⟨x, hx⟩ := List.exists_mem_of_ne_nil _ hne
    have hx2 := List.mem_filter.mp hx
    have hany : s.store.any (fun c =>
        c.network_setup.ip_address == d.network_setup.ip_address) = true :=
      List.any_eq_true.mpr ⟨x, hx2.1, hx2.2⟩
    have heq : Service.add_camera s now d
        = (Except.error (Err.conflict "A camera with this IP address already exists."), s) := by
      simp [Service.add_camera, hany]
    refine ⟨heq, ?_⟩
    rw [heq]
    exact hcount
  · intro h1 h2
    simp [Service.add_camera, h1, h2]

/-- C5 witness: submitting camera "X"'s address again (fixture `dataX` against
the fixture store) fails Conflict and the store still holds exactly one camera
with address 1. -/
theorem C5_witness :
    Service.add_camera stC 100 dataX
      = (Except.error (Err.conflict "A camera with this IP address already exists."), stC)
    ∧ countAddr (Service.add_camera stC 100 dataX).2.store 1 = 1 :=
  (C5_add_camera_uniqueness stC 100 dataX).1 (by decide)

/-! ### Claim C8: atomic failure on Conflict -/

/-- C8: whenever `add_camera` or `add_feed` fails with a Conflict error, the
returned state is exactly the pre-call state — the Conflict checks run before
any mutation (`list_cameras` and the IP-bound parse mutate nothing by
construction: they return no state). -/
theorem C8_conflict_failure_atomic (s : RepoState) (now : Int) (d : NewCameraData)
    (cid : Nat) (fd : VideoFeedSetup) :
    (∀ m, (Service.add_camera s now d).1 = Except.error (Err.conflict m) →
      (Service.add_camera s now d).2 = s)
    ∧ (∀ m, (Service.add_feed s now cid fd).1 = Except.error (Err.conflict m) →
      (Service.add_feed s now cid fd).2 = s) := by
  constructor
  · intro m hm
    by_cases h1 : (s.store.any (fun x =>
        x.network_setup.ip_address == d.network_setup.ip_address)) = true
    · simp [Service.add_camera, h1]
    · by_cases h2 : (s.store.any (fun x =>
          x.camera_name == d.camera_name && x.camera_model == d.camera_model)) = true
      · simp [Service.add_camera, h1, h2]
      · rcases hrepo : Repo.add_camera s now d with ⟨cam, s₁⟩
        simp [Service.add_camera, h1, h2, hrepo] at hm
  · intro m hm
    cases hg : Repo.get_camera s cid with
    | none => simp [Service.add_feed, hg] at hm
    | some cam =>
      by_cases hdup : (cam.available_feeds.any (fun f =>
          f.feed_protocol == fd.feed_protocol && f.feed_port == fd.feed_port)) = true
      · simp [Service.add_feed, hg, hdup]
      · rcases haf : Repo.add_feed s now cid fd with ⟨r, s₁⟩
        cases r with
        | none => simp [Service.add_feed, hg, hdup, haf] at hm
        | some nf => simp [Service.add_feed, hg, hdup, haf] at hm

/-- C8 witness: the Conflict-failing duplicate-feed add on the fixture store
leaves the store exactly as it was. -/
theorem C8_witness :
    (Service.add_feed stC 100 0 ⟨"rtsp", 554, "/y"⟩).2 = stC :=
  (C8_conflict_failure_atomic stC 100 dataX 0 ⟨"rtsp", 554, "/y"⟩).2
    "A feed with same protocol and port already exists for this camera." rfl

/-! ### Claim C9: page = 0 yields the empty page -/

/-- In the absence of IP bounds the filter pipeline never errors. -/
theorem filteredCameras_no_ip (s : RepoState) (now : Int) (model : Option String)
    (online : Option Bool) :
    Service.filteredCameras s now model none none online
      = Except.ok (Service.onlineStage s now online (Service.modelStage model s.store)) := by
  simp [Service.filteredCameras, Service.ipRangeStage, pyTruthy]

/-- C9: with any `page_size ≥ 1`, `list_cameras` at `page = 0` (no IP bounds,
other filters arbitrary) succeeds with the empty sequence, and so does
`list_feeds` on an existing camera — the computed slice is
`[-page_size, 0)`, which normalises to an empty range. -/
theorem C9_page_zero_empty (s : RepoState) (now : Int) (model : Option String)
    (online : Option Bool) (cid : Nat) (protocol : Option String)
    (port : Option Nat) (q : Option String) (page_size : Int)
    (hps : 1 ≤ page_size) :
    Service.list_cameras s now model none none online 0 page_size = Except.ok []
    ∧ (∀ cam, Repo.get_camera s cid = some cam →
        Service.list_feeds s cid protocol port q 0 page_size = Except.ok []) := by
  constructor
  · simp only [Service.list_cameras, filteredCameras_no_ip]
    rw [show ((0 : Int) - 1) * page_size + page_size = 0 from by ring]
    rw [pySlice_stop_zero]
  · intro cam hg
    simp only [Service.list_feeds, hg]
    rw [show ((0 : Int) - 1) * page_size + page_size = 0 from by ring]
    rw [pySlice_stop_zero]

/-- C9 witness: page 0 with page size 20 on the fixture store returns the
empty camera page and the empty feed page of camera 0. -/
theorem C9_witness :
    Service.list_cameras stC 100 none none none none 0 20 = Except.ok []
    ∧ Service.list_feeds stC 0 none none none 0 20 = Except.ok [] :=
  ⟨(C9_page_zero_empty stC 100 none none 0 none none none 20 (by decide)).1,
   (C9_page_zero_empty stC 100 none none 0 none none none 20 (by decide)).2 camA rfl⟩

/-! ### Claim C6: list_cameras filter order and IP-parse failure -/

/-- `parseBound` only ever fails with the Conflict "Invalid IP format.". -/
theorem parseBound_error (b : Option String) (e : Err)
    (h : Service.parseBound b = Except.error e) :
    e = Err.conflict "Invalid IP format." := by
  unfold Service.parseBound at h
  by_cases ht : pyTruthy b = true
  · rw [if_pos ht] at h
    cases hp : ip_address (b.getD "") with
    | none =>
      rw [hp] at h
      simp at h
      exact h.symm
    | some v =>
      rw [hp] at h
      exact absurd h (by simp)
  · rw [if_neg ht] at h
    exact absurd h (by simp)

/-- The online filter never widens the camera list. -/
theorem onlineStage_sublist (s : RepoState) (now : Int) (online : Option Bool)
    (cameras : List CameraDetails) :
    (Service.onlineStage s now online cameras).Sublist cameras := by
  unfold Service.onlineStage
  cases online with
  | none => exact List.Sublist.refl _
  | some b => exact List.filter_sublist _

/-- The model filter never widens the camera list. -/
theorem modelStage_sublist (model : Option String) (cameras : List CameraDetails) :
    (Service.modelStage model cameras).Sublist cameras := by
  unfold Service.modelStage
  by_cases h : pyTruthy model = true
  · rw [if_pos h]
    exact List.filter_sublist _
  · rw [if_neg h]

/-- C6: `list_cameras` applies its filters in the fixed order model-substring,
then ip-range, then online, each narrowing the previous stage (the paginated
result is a slice of the final stage, each stage a sublist of the one
before); and a truthy `ip_from`/`ip_to` bound that fails to parse makes the
whole call fail with the Conflict "Invalid IP format.", for every collection
state. -/
theorem C6_list_cameras_filter_order (s : RepoState) (now : Int)
    (model ip_from ip_to : Option String) (online : Option Bool)
    (page page_size : Int) :
    ((pyTruthy ip_from = true ∧ ip_address (ip_from.getD "") = none)
      ∨ (pyTruthy ip_to = true ∧ ip_address (ip_to.getD "") = none) →
      Service.list_cameras s now model ip_from ip_to online page page_size
        = Except.error (Err.conflict "Invalid IP format."))
    ∧ (∀ lo hi, Service.parseBound ip_from = Except.ok lo →
        Service.parseBound ip_to = Except.ok hi →
        ∃ st2,
          Service.ipRangeStage ip_from ip_to (Service.modelStage model s.store)
              = Except.ok st2
          ∧ Service.list_cameras s now model ip_from ip_to online page page_size
              = Except.ok (pySlice (Service.onlineStage s now online st2)
                  ((page - 1) * page_size) ((page - 1) * page_size + page_size))
          ∧ (Service.onlineStage s now online st2).Sublist st2
          ∧ st2.Sublist (Service.modelStage model s.store)
          ∧ (Service.modelStage model s.store).Sublist s.store) := by
  constructor
  · intro hbad
    have hor : (pyTruthy ip_from || pyTruthy ip_to) = true := by
      rcases hbad with ⟨h, _⟩ | ⟨h, _⟩ <;> simp [h]
    rcases hbad with ⟨ht, hp⟩ | ⟨ht, hp⟩
    · have hfrom : Service.parseBound ip_from
          = Except.error (Err.conflict "Invalid IP format.") := by
        simp [Service.parseBound, ht, hp]
      simp [Service.list_cameras, Service.filteredCameras, Service.ipRangeStage,
        hor, hfrom]
    · have hto : Service.parseBound ip_to
          = Except.error (Err.conflict "Invalid IP format.") := by
        simp [Service.parseBound, ht, hp]
      cases hpf : Service.parseBound ip_from with
      | error e =>
        have he := parseBound_error ip_from e hpf
        simp [Service.list_cameras, Service.filteredCameras, Service.ipRangeStage,
          hor, hpf, he]
      | ok lo =>
        simp [Service.list_cameras, Service.filteredCameras, Service.ipRangeStage,
          hor, hpf, hto]
  · intro lo hi hlo hhi
    by_cases htr : (pyTruthy ip_from || pyTruthy ip_to) = true
    · refine ⟨(Service.modelStage model s.store).filter
          (fun c => Service.in_range lo hi c.network_setup.ip_address),
        ?_, ?_, ?_, ?_, ?_⟩
      · simp [Service.ipRangeStage, htr, hlo, hhi]
      · simp [Service.list_cameras, Service.filteredCameras, Service.ipRangeStage,
          htr, hlo, hhi]
      · exact onlineStage_sublist s now online _
      · exact List.filter_sublist _
      · exact modelStage_sublist model s.store
    · refine ⟨Service.modelStage model s.store, ?_, ?_, ?_, ?_, ?_⟩
      · simp [Service.ipRangeStage, htr]
      · simp [Service.list_cameras, Service.filteredCameras, Service.ipRangeStage, htr]
      · exact onlineStage_sublist s now online _
      · exact List.Sublist.refl _
      · exact modelStage_sublist model s.store

/-- C6 witness: a malformed `ip_from` literal ("999.1.2.3" — octet out of
range) aborts `list_cameras` on the fixture store with the Conflict error. -/
theorem C6_witness :
    Service.list_cameras stC 100 none (some "999.1.2.3") none none 1 20
      = Except.error (Err.conflict "Invalid IP format.") :=
  (C6_list_cameras_filter_order stC 100 none (some "999.1.2.3") none none 1 20).1
    (Or.inl ⟨rfl, rfl⟩)

/-! ### Claim C7: pagination semantics -/

/-- Concatenating enough `take ps ∘ drop (k·ps)` pages rebuilds the list. -/
theorem pages_join {α : Type} (ps : Nat) (hps : 1 ≤ ps) :
    ∀ (N : Nat) (L : List α), L.length ≤ N * ps →
      (List.range N).flatMap (fun k => (L.drop (k * ps)).take ps) = L := by
  intro N
  induction N with
  | zero =>
    intro L hL
    have hnil : L = [] := List.eq_nil_of_length_eq_zero (by omega)
    simp [hnil]
  | succ n ih =>
    intro L hL
    rw [List.range_succ_eq_map, List.flatMap_cons, List.flatMap_map]
    have hfun : ∀ k : Nat,
        (L.drop (Nat.succ k * ps)).take ps = ((L.drop ps).drop (k * ps)).take ps := by
      intro k
      rw [List.drop_drop]
      have h2 : ps + k * ps = Nat.succ k * ps := by
        rw [Nat.succ_mul, Nat.add_comm]
      rw [h2]
    simp only [hfun]
    rw [Nat.succ_mul] at hL
    rw [ih (L.drop ps) (by rw [List.length_drop]; omega)]
    simp [List.take_append_drop]

/-- C7: for `page ≥ 1` and `page_size ≥ 1`, and any filter combination whose
filter stage succeeds with sequence `L`, `list_cameras` returns exactly the
slice `[(page-1)·page_size, page·page_size)` of `L` clipped to its length; an
out-of-range page yields the empty sequence without error; and concatenating
pages `1..N` (i.e. offsets `0..N-1`) with a fixed page size reproduces `L`
exactly, whenever `N` pages cover `L`. -/
theorem C7_pagination (s : RepoState) (now : Int)
    (model ip_from ip_to : Option String) (online : Option Bool)
    (L : List CameraDetails)
    (hL : Service.filteredCameras s now model ip_from ip_to online = Except.ok L)
    (page page_size : Int) (hp : 1 ≤ page) (hps : 1 ≤ page_size) :
    Service.list_cameras s now model ip_from ip_to online page page_size
      = Except.ok ((L.drop (((page - 1) * page_size).toNat)).take page_size.toNat)
    ∧ ((L.length : Int) ≤ (page - 1) * page_size →
        Service.list_cameras s now model ip_from ip_to online page page_size
          = Except.ok [])
    ∧ (∀ N : Nat, L.length ≤ N * page_size.toNat →
        (List.range N).flatMap (fun k =>
          (L.drop (k * page_size.toNat)).take page_size.toNat) = L) := by
  have ha : 0 ≤ (page - 1) * page_size := mul_nonneg (by omega) (by omega)
  have hmain : Service.list_cameras s now model ip_from ip_to online page page_size
      = Except.ok ((L.drop (((page - 1) * page_size).toNat)).take page_size.toNat) := by
    simp only [Service.list_cameras, hL]
    rw [pySlice_nonneg L ((page - 1) * page_size) page_size ha (by omega)]
  refine ⟨hmain, ?_, ?_⟩
  · intro hout
    rw [hmain]
    have hdrop : L.drop (((page - 1) * page_size).toNat) = [] :=
      List.drop_eq_nil_of_le (by omega)
    rw [hdrop, List.take_nil]
  · intro N hN
    exact pages_join page_size.toNat (by omega) N L hN

/-- C7 witness: on the unfiltered fixture store (`L = [camA, camB]`), page 1
of size 1 is `[camA]`, page 3 of size 1 is out of range and empty, and pages
1 and 2 of size 1 concatenate back to `L`. -/
theorem C7_witness :
    Service.list_cameras stC 100 none none none none 1 1 = Except.ok [camA]
    ∧ Service.list_cameras stC 100 none none none none 3 1 = Except.ok []
    ∧ (List.range 2).flatMap (fun k =>
        (([camA, camB].drop (k * 1)).take 1 : List CameraDetails)) = [camA, camB] :=
  ⟨(C7_pagination stC 100 none none none none [camA, camB] rfl 1 1
      (by decide) (by decide)).1,
   (C7_pagination stC 100 none none none none [camA, camB] rfl 3 1
      (by decide) (by decide)).2.1 (by decide),
   (C7_pagination stC 100 none none none none [camA, camB] rfl 1 1
      (by decide) (by decide)).2.2 2 (by decide)⟩

/-! ### Claim C10: update_feed / remove_feed frame conditions -/

/-- Patching a feed never touches its `feed_id`. -/
theorem applyFeedUpdate_feed_id (f : VideoFeedInfo) (u : FeedUpdate) :
    (Repo.applyFeedUpdate f u).feed_id = f.feed_id := by
  cases hp : u.feed_protocol <;> cases hq : u.feed_port <;> cases hr : u.feed_path <;>
    simp [Repo.applyFeedUpdate, hp, hq, hr]

/-- A successful `updateFeedList` patches one position in place. -/
theorem updateFeedList_spec (u : FeedUpdate) (fid : Nat) :
    ∀ (feeds : List VideoFeedInfo) (nf : VideoFeedInfo) (feeds' : List VideoFeedInfo),
      Repo.updateFeedList u fid feeds = some (nf, feeds') →
      ∃ i f, feeds[i]? = some f ∧ (f.feed_id == fid) = true
        ∧ nf = Repo.applyFeedUpdate f u ∧ feeds' = feeds.set i nf := by
  intro feeds
  induction feeds with
  | nil =>
    intro nf feeds' h
    exact absurd h (by simp [Repo.updateFeedList])
  | cons f fs ih =>
    intro nf feeds' h
    by_cases hf : (f.feed_id == fid) = true
    · simp [Repo.updateFeedList, hf] at h
      refine ⟨0, f, by simp, hf, h.1.symm, ?_⟩
      rw [← h.2, ← h.1]
      rfl
    · cases hrec : Repo.updateFeedList u fid fs with
      | none => simp [Repo.updateFeedList, hf, hrec] at h
      | some pr =>
        rcases pr with ⟨nf0, fs0⟩
        simp [Repo.updateFeedList, hf, hrec] at h
        obtain ⟨i, g, hg, hgid, hnf, hfs⟩ := ih nf0 fs0 hrec
        refine ⟨i + 1, g, ?_, hgid, ?_, ?_⟩
        · simpa using hg
        · rw [← h.1, hnf]
        · rw [← h.2, hfs, ← h.1]
          rfl

/-- A successful `removeFeedList` removes exactly the first matching feed. -/
theorem removeFeedList_spec (fid : Nat) :
    ∀ (feeds feeds' : List VideoFeedInfo),
      Repo.removeFeedList fid feeds = some feeds' →
      ∃ pre f post, feeds = pre ++ f :: post ∧ (f.feed_id == fid) = true
        ∧ (∀ g ∈ pre, (g.feed_id == fid) = false) ∧ feeds' = pre ++ post := by
  intro feeds
  induction feeds with
  | nil =>
    intro feeds' h
    exact absurd h (by simp [Repo.removeFeedList])
  | cons f fs ih =>
    intro feeds' h
    by_cases hf : (f.feed_id == fid) = true
    · simp [Repo.removeFeedList, hf] at h
      exact ⟨[], f, fs, rfl, hf, by simp, h.symm⟩
    · cases hrec : Repo.removeFeedList fid fs with
      | none => simp [Repo.removeFeedList, hf, hrec] at h
      | some fs0 =>
        simp [Repo.removeFeedList, hf, hrec] at h
        obtain ⟨pre, g, post, he, hgid, hpre, hfs⟩ := ih fs0 hrec
        refine ⟨f :: pre, g, post, by rw [List.cons_append, ← he], hgid, ?_, ?_⟩
        · intro x hx
          rcases List.mem_cons.mp hx with hx1 | hx2
          · rw [hx1]
            exact Bool.eq_false_iff.mpr hf
          · exact hpre x hx2
        · rw [← h, hfs]
          rfl

/-- C10: for an existing camera, a successful repository `update_feed` keeps
the target feed's `feed_id` and patches that feed in place (the camera's new
feed sequence is `set i` of the old one, every other position untouched);
and a successful `remove_feed` removes exactly the first feed with the target
id, leaving the remaining feeds in their relative order (`pre ++ post`). -/
theorem C10_feed_update_remove_frame (s : RepoState) (now : Int) (cid fid : Nat)
    (u : FeedUpdate) (cam : CameraDetails)
    (hget : Repo.get_camera s cid = some cam) :
    (∀ nf s₁, Repo.update_feed s now cid fid u = (some nf, s₁) →
      nf.feed_id = fid
      ∧ ∃ i f, cam.available_feeds[i]? = some f ∧ f.feed_id = fid
          ∧ nf = Repo.applyFeedUpdate f u
          ∧ ∃ cam', Repo.get_camera s₁ cid = some cam'
              ∧ cam'.available_feeds = cam.available_feeds.set i nf)
    ∧ (∀ s₁, Repo.remove_feed s now cid fid = (true, s₁) →
      ∃ pre f post, cam.available_feeds = pre ++ f :: post ∧ f.feed_id = fid
        ∧ (∀ g ∈ pre, g.feed_id ≠ fid)
        ∧ ∃ cam', Repo.get_camera s₁ cid = some cam'
            ∧ cam'.available_feeds = pre ++ post) := by
  have hcamid : cam.camera_id = cid := by
    have hpc := List.find?_some hget
    exact eq_of_beq hpc
  constructor
  · intro nf s₁ h
    cases hul : Repo.updateFeedList u fid cam.available_feeds with
    | none => simp [Repo.update_feed, hget, hul] at h
    | some pr =>
      rcases pr with ⟨nf0, fs'⟩
      simp [Repo.update_feed, hget, hul] at h
      obtain ⟨i, f, hgeti, hfid, hnf0, hfs⟩ :=
        updateFeedList_spec u fid cam.available_feeds nf0 fs' hul
      have hfid' : f.feed_id = fid := eq_of_beq hfid
      have hnf : nf = Repo.applyFeedUpdate f u := by rw [← h.1, hnf0]
      refine ⟨by rw [hnf, applyFeedUpdate_feed_id, hfid'], i, f, hgeti, hfid', hnf, ?_⟩
      refine ⟨{ cam with available_feeds := fs', last_updated_on := now }, ?_, ?_⟩
      · rw [← h.2]
        exact find?_dictPut s.store cid cam _ hget hcamid
      · show fs' = cam.available_feeds.set i nf
        rw [hfs, ← h.1]
  · intro s₁ h
    cases hrl : Repo.removeFeedList fid cam.available_feeds with
    | none => simp [Repo.remove_feed, hget, hrl] at h
    | some fs' =>
      simp [Repo.remove_feed, hget, hrl] at h
      obtain ⟨pre, f, post, he, hfid, hpre, hfs⟩ :=
        removeFeedList_spec fid cam.available_feeds fs' hrl
      refine ⟨pre, f, post, he, eq_of_beq hfid, ?_, ?_⟩
      · intro g hg hgid
        have := hpre g hg
        rw [hgid] at this
        simp at this
      · refine ⟨{ cam with available_feeds := fs', last_updated_on := now }, ?_, ?_⟩
        · rw [← h]
          exact find?_dictPut s.store cid cam _ hget hcamid
        · show fs' = pre ++ post
          exact hfs

/-- Camera "X" after its feed's port is patched to 8554 at instant 100. -/
def camA' : CameraDetails :=
  { camera_name := "X", camera_model := "M", network_setup := ⟨1⟩,
    image_settings := ⟨50, 50, 50⟩,
    available_feeds := [⟨"rtsp", 8554, "/", 10⟩],
    camera_id := 0, added_on := 0, last_updated_on := 100,
    last_known_checkin := none }

/-- C10 witness: patching the port of feed 10 on camera 0 keeps its id — the
frame theorem applied at the fixture store, with the repository call's result
discharged by computation. -/
theorem C10_witness :
    (⟨"rtsp", 8554, "/", 10⟩ : VideoFeedInfo).feed_id = 10 :=
  ((C10_feed_update_remove_frame stC 100 0 10 ⟨none, some 8554, none⟩ camA rfl).1
    ⟨"rtsp", 8554, "/", 10⟩ ⟨[camA', camB], 20⟩ rfl).1
